import Mathlib

/-!
Verification development for the AliExpress price-monitor bot
(`src/main.py`, with the spreadsheet variant `src/hadef.py`).

The Python source is shallowly embedded below.  Conventions:

* machine floats of the source are modelled as exact rationals (`ℚ`);
* Python `None` becomes `Option.none`; values that may be absent are `Option`;
* fallible steps (Python exceptions) are `Except String _`, where the
  `.error` constructor marks an exception crossing the function in question;
* byte strings are `List Nat` (each entry a byte value);
* wall-clock instants are natural / integer numbers; `datetime.min` used by
  the spreadsheet variant as the sort key of never-checked products is
  modelled by mapping `none` strictly below every parsed timestamp.

Each claim of the specification is settled by exactly one theorem near the
end of the file; counterexample and witness theorems accompany them where
needed.
-/

/-! ## Bytes, MD5 and HMAC-MD5 (Python `hashlib.md5` / `hmac.new`)

`main.py` line 643-647 computes
`hmac.new(secret.encode("utf-8"), canonical.encode("utf-8"), hashlib.md5).hexdigest().upper()`.
The MD5 compression function below follows RFC 1321; the 64 round constants
are `floor(2^32 * abs(sin(i+1)))` and were generated from that formula with
exact rational arithmetic.  Test-vector theorems (`md5_rfc1321_empty`,
`md5_rfc1321_abc`, `hmac_md5_rfc2202_case2`) validate the implementation. -/

def md5K : List Nat := [3614090360, 3905402710, 606105819, 3250441966, 4118548399, 1200080426, 2821735955, 4249261313, 1770035416, 2336552879, 4294925233, 2304563134, 1804603682, 4254626195, 2792965006, 1236535329, 4129170786, 3225465664, 643717713, 3921069994, 3593408605, 38016083, 3634488961, 3889429448, 568446438, 3275163606, 4107603335, 1163531501, 2850285829, 4243563512, 1735328473, 2368359562, 4294588738, 2272392833, 1839030562, 4259657740, 2763975236, 1272893353, 4139469664, 3200236656, 681279174, 3936430074, 3572445317, 76029189, 3654602809, 3873151461, 530742520, 3299628645, 4096336452, 1126891415, 2878612391, 4237533241, 1700485571, 2399980690, 4293915773, 2240044497, 1873313359, 4264355552, 2734768916, 1309151649, 4149444226, 3174756917, 718787259, 3951481745]

def md5S : List Nat := [7, 12, 17, 22, 7, 12, 17, 22, 7, 12, 17, 22, 7, 12, 17, 22, 5, 9, 14, 20, 5, 9, 14, 20, 5, 9, 14, 20, 5, 9, 14, 20, 4, 11, 16, 23, 4, 11, 16, 23, 4, 11, 16, 23, 4, 11, 16, 23, 6, 10, 15, 21, 6, 10, 15, 21, 6, 10, 15, 21, 6, 10, 15, 21]

def rotl32 (x n : Nat) : Nat := ((x <<< n) ||| (x >>> (32 - n))) % 2 ^ 32

def not32 (x : Nat) : Nat := x ^^^ 0xFFFFFFFF

def md5F (i b c d : Nat) : Nat :=
  if i < 16 then (b &&& c) ||| (not32 b &&& d)
  else if i < 32 then (d &&& b) ||| (not32 d &&& c)
  else if i < 48 then b ^^^ c ^^^ d
  else c ^^^ (b ||| not32 d)

def md5G (i : Nat) : Nat :=
  if i < 16 then i
  else if i < 32 then (5 * i + 1) % 16
  else if i < 48 then (3 * i + 5) % 16
  else (7 * i) % 16

def leWord (block : List Nat) (j : Nat) : Nat :=
  block.getD (4 * j) 0 + 256 * block.getD (4 * j + 1) 0 +
    65536 * block.getD (4 * j + 2) 0 + 16777216 * block.getD (4 * j + 3) 0

def md5Step (block : List Nat) (st : Nat × Nat × Nat × Nat) (i : Nat) : Nat × Nat × Nat × Nat :=
  let f := (md5F i st.2.1 st.2.2.1 st.2.2.2 + st.1 + md5K.getD i 0 + leWord block (md5G i)) % 2 ^ 32
  (st.2.2.2, (st.2.1 + rotl32 f (md5S.getD i 0)) % 2 ^ 32, st.2.1, st.2.2.1)

def md5Block (st : Nat × Nat × Nat × Nat) (block : List Nat) : Nat × Nat × Nat × Nat :=
  let r := (List.range 64).foldl (md5Step block) st
  ((st.1 + r.1) % 2 ^ 32, (st.2.1 + r.2.1) % 2 ^ 32,
    (st.2.2.1 + r.2.2.1) % 2 ^ 32, (st.2.2.2 + r.2.2.2) % 2 ^ 32)

def leBytes (n count : Nat) : List Nat :=
  (List.range count).map (fun i => (n >>> (8 * i)) % 256)

def md5Pad (msg : List Nat) : List Nat :=
  msg ++ [0x80] ++ List.replicate ((120 - (msg.length + 1) % 64) % 64) 0 ++
    leBytes (8 * msg.length % 2 ^ 64) 8

def md5Blocks : Nat → Nat × Nat × Nat × Nat → List Nat → Nat × Nat × Nat × Nat
  | 0, st, _ => st
  | n + 1, st, bytes => md5Blocks n (md5Block st (bytes.take 64)) (bytes.drop 64)

def md5Bytes (msg : List Nat) : List Nat :=
  let padded := md5Pad msg
  let r := md5Blocks (padded.length / 64) (0x67452301, 0xefcdab89, 0x98badcfe, 0x10325476) padded
  leBytes r.1 4 ++ leBytes r.2.1 4 ++ leBytes r.2.2.1 4 ++ leBytes r.2.2.2 4

def hexDigit (n : Nat) : Char := if n < 10 then Char.ofNat (48 + n) else Char.ofNat (87 + n)

-- `hashlib.md5(...).hexdigest()`: lowercase hexadecimal rendering.
def bytesToHex (bs : List Nat) : String :=
  String.mk (bs.foldr (fun b acc => hexDigit (b / 16) :: hexDigit (b % 16) :: acc) [])

-- `str.encode("utf-8")` on a character (standard 1-4 byte UTF-8).
def utf8Bytes (c : Char) : List Nat :=
  let n := c.toNat
  if n < 0x80 then [n]
  else if n < 0x800 then [0xC0 + n / 0x40, 0x80 + n % 0x40]
  else if n < 0x10000 then [0xE0 + n / 0x1000, 0x80 + (n / 0x40) % 0x40, 0x80 + n % 0x40]
  else [0xF0 + n / 0x40000, 0x80 + (n / 0x1000) % 0x40, 0x80 + (n / 0x40) % 0x40, 0x80 + n % 0x40]

def strBytes (s : String) : List Nat := (s.toList.map utf8Bytes).flatten

-- `hmac.new(key, msg, hashlib.md5)` (RFC 2104 with a 64-byte block).
def hmacMd5 (key msg : List Nat) : List Nat :=
  let k0 := if key.length > 64 then md5Bytes key else key
  let kp := k0 ++ List.replicate (64 - k0.length) 0
  md5Bytes ((kp.map (fun b => b ^^^ 0x5c)) ++ md5Bytes ((kp.map (fun b => b ^^^ 0x36)) ++ msg))

-- Python `str.upper()`, character by character (the argument here is always
-- an ASCII hex string, on which this agrees with Python).
def pyUpper (s : String) : String := String.mk (s.toList.map Char.toUpper)

-- Python `str.lower()`, character by character (applied to ASCII error
-- messages and URLs in the source).
def pyLower (s : String) : String := String.mk (s.toList.map Char.toLower)

-- Boolean prefix test on character lists.  (The core `List.isPrefixOf`
-- compiles to a match that also destructs its second argument, which
-- blocks definitional reduction against a symbolic tail; this version
-- matches lazily.)
def isPrefixL : List Char → List Char → Bool
  | [], _ => true
  | _ :: _, [] => false
  | a :: as, b :: bs => (a == b) && isPrefixL as bs

-- Python `pat in s` for strings: substring containment.
def containsSub (pat s : String) : Bool :=
  s.toList.tails.any (fun t => isPrefixL pat.toList t)

-- Python `s.endswith(suffix)`.
def pyEndsWith (s suffix : String) : Bool := suffix.data.isSuffixOf s.data

-- Python `s.replace(pat, rep)` (all occurrences, left to right); the fuel
-- argument only bounds the recursion and is initialised with the string
-- length, which one scan never exceeds.
def replaceFuel (pat rep : List Char) : Nat → List Char → List Char
  | 0, l => l
  | _ + 1, [] => []
  | f + 1, c :: cs =>
    if isPrefixL pat (c :: cs) then rep ++ replaceFuel pat rep f ((c :: cs).drop pat.length)
    else c :: replaceFuel pat rep f cs

def pyReplace (s pat rep : String) : String :=
  if pat.data.isEmpty then s
  else String.mk (replaceFuel pat.data rep.data s.data.length s.data)

-- Python default `str.strip()` whitespace (the ASCII part, which is all
-- the price strings ever carry).
def isPySpace (c : Char) : Bool :=
  c == ' ' || c == '\t' || c == '\n' || c == '\r' || c == '\x0b' || c == '\x0c'

def pyStrip (s : String) : String :=
  String.mk (((s.data.dropWhile isPySpace).reverse.dropWhile isPySpace).reverse)

/-! ## Request signing (`AliExpressAPI.generate_signature`, main.py 634-649)

Parameter maps are modelled as association lists `List (String × Option String)`;
`none` is Python `None`.  The call sites only ever put strings (or `None`)
in the map, so `str(v)` is the identity on the retained values.  Python
dicts have pairwise-distinct keys, which the embedding inherits at every
call site.  `sorted(..., key=lambda x: x[0])` is a stable sort by key;
`insertionSortB` below is the same stable sort. -/

def ALIEXPRESS_APP_SECRET : String := "R2Zl1pe2p47dFFjXz30546XTwu4JcFlk"

-- the dict comprehension of line 635-638
def params_to_sign (params : List (String × Option String)) : List (String × String) :=
  params.filterMap (fun kv =>
    match kv.2 with
    | none => none
    | some v => if kv.1 ≠ "sign" ∧ v ≠ "" then some (kv.1, v) else none)

-- Python string comparison: lexicographic on code points.
def charListLe : List Char → List Char → Bool
  | [], _ => true
  | _ :: _, [] => false
  | a :: as, b :: bs =>
    if a.toNat < b.toNat then true
    else if b.toNat < a.toNat then false
    else charListLe as bs

def pyStrLe (a b : String) : Bool := charListLe a.data b.data

-- Stable insertion sort with a boolean comparison: an element is inserted
-- before the first list element it compares less-or-equal to, so elements
-- with equal keys keep their relative order, as Python `sorted` guarantees.
def orderedInsertB (le : α → α → Bool) (a : α) : List α → List α
  | [] => [a]
  | b :: l => if le a b then a :: b :: l else b :: orderedInsertB le a l

def insertionSortB (le : α → α → Bool) : List α → List α
  | [] => []
  | a :: l => orderedInsertB le a (insertionSortB le l)

-- line 640: `sorted(params_to_sign.items(), key=lambda x: x[0])`
def sorted_items (params : List (String × Option String)) : List (String × String) :=
  insertionSortB (fun a b => pyStrLe a.1 b.1) (params_to_sign params)

-- line 641: the key-value pairs concatenated in order with no separator
def canonical_string (params : List (String × Option String)) : String :=
  String.join ((sorted_items params).map (fun kv => kv.1 ++ kv.2))

-- lines 643-649
def generate_signature (app_secret : String) (params : List (String × Option String)) : String :=
  pyUpper (bytesToHex (hmacMd5 (strBytes app_secret) (strBytes (canonical_string params))))

-- the parameter map of the signature example in the specification
def exampleSignParams : List (String × Option String) :=
  [("app_key", some "519492"), ("method", some "x"),
   ("timestamp", some "1"), ("sign", some "IGNORE")]

/-! ## Product URL handling (`extract_product_id` / `build_product_url`,
main.py 651-670)

Every regular expression in `extract_product_id` has the shape
literal-prefix ++ `(\d+)` ++ literal-suffix, where the suffix is either
empty or starts with a literal dot (never a digit).  Hence greedy matching
with backtracking coincides with taking the maximal digit run after the
prefix and then requiring the suffix, and `re.search` scans candidate start
positions left to right.  `tryPatternAt` is one candidate position,
`searchPattern` is the left-to-right scan. -/

def tryPatternAt (pre suf s : List Char) : Option (List Char) :=
  if isPrefixL pre s then
    if ((s.drop pre.length).takeWhile Char.isDigit).isEmpty then none
    else if isPrefixL suf ((s.drop pre.length).dropWhile Char.isDigit) then
      some ((s.drop pre.length).takeWhile Char.isDigit)
    else none
  else none

def searchPattern (pre suf : List Char) : List Char → Option (List Char)
  | [] => none
  | c :: cs =>
    match tryPatternAt pre suf (c :: cs) with
    | some ds => some ds
    | none => searchPattern pre suf cs

-- the seven patterns of lines 653-661, in source order
def productIdPatterns : List (List Char × List Char) :=
  [("/item/".toList, ".html".toList),
   ("/i/".toList, ".html".toList),
   ("/".toList, ".html".toList),
   ("item/".toList, "".toList),
   ("/goods/".toList, "".toList),
   ("product/".toList, "".toList),
   ("/dp/".toList, "".toList)]

def extract_product_id (url : String) : Option String :=
  (productIdPatterns.findSome? (fun p => searchPattern p.1 p.2 url.data)).map String.mk

-- lines 668-670
def build_product_url (product_id : String) : String :=
  "https://www.aliexpress.com/item/" ++ product_id ++ ".html"

/-! ## JSON values and the Python operations the client performs on them

`response.json()` may return any JSON document; the client then navigates it
with `in`, `[...]`, `.get(...)`, `.keys()` and truthiness tests, each of
which can raise on an unexpected shape.  Those raises are modelled as
`Except.error` and are what the `try`/`except` blocks of the source catch. -/

inductive Json where
  | null
  | jbool (b : Bool)
  | jnum (q : ℚ)
  | jstr (s : String)
  | jarr (xs : List Json)
  | jobj (kvs : List (String × Json))

-- Python truthiness of a JSON value.
def pyTruthy : Json → Bool
  | .null => false
  | .jbool b => b
  | .jnum q => q.num != 0
  | .jstr s => !s.isEmpty
  | .jarr xs => !xs.isEmpty
  | .jobj kvs => !kvs.isEmpty

-- Python `x or y` on JSON values.
def pyOrJ (a b : Json) : Json := if pyTruthy a then a else b

-- Python `key in j`.
def pyIn (key : String) (j : Json) : Except String Bool :=
  match j with
  | .jobj kvs => .ok (kvs.any (fun kv => kv.1 == key))
  | .jarr xs => .ok (xs.any (fun x => match x with | .jstr t => t == key | _ => false))
  | .jstr s => .ok (containsSub key s)
  | _ => .error "TypeError: argument is not iterable"

-- Python `j[key]` with a string key.
def pyGetItem (j : Json) (key : String) : Except String Json :=
  match j with
  | .jobj kvs =>
    match kvs.find? (fun kv => kv.1 == key) with
    | some kv => .ok kv.2
    | none => .error "KeyError"
  | _ => .error "TypeError: value is not subscriptable by a string"

-- Python `j[0]`.
def pyIndexZero (j : Json) : Except String Json :=
  match j with
  | .jarr (x :: _) => .ok x
  | .jarr [] => .error "IndexError"
  | .jstr s =>
    match s.data with
    | c :: _ => .ok (.jstr (String.mk [c]))
    | [] => .error "IndexError"
  | .jobj _ => .error "KeyError"
  | _ => .error "TypeError: value is not subscriptable"

-- Python `j.get(key)` (raises AttributeError unless `j` is a dict).
def pyDictGet (j : Json) (key : String) : Except String Json :=
  match j with
  | .jobj kvs =>
    .ok (match kvs.find? (fun kv => kv.1 == key) with | some kv => kv.2 | none => .null)
  | _ => .error "AttributeError: object has no attribute get"

-- Python `j.get(key, dflt)`.
def pyDictGetD (j : Json) (key : String) (dflt : Json) : Except String Json :=
  match j with
  | .jobj kvs =>
    .ok (match kvs.find? (fun kv => kv.1 == key) with | some kv => kv.2 | none => dflt)
  | _ => .error "AttributeError: object has no attribute get"

-- Python `j.keys()` in insertion order.
def pyKeys (j : Json) : Except String (List String) :=
  match j with
  | .jobj kvs => .ok (kvs.map Prod.fst)
  | _ => .error "AttributeError: object has no attribute keys"

/-! ### `str(value)` and `float(str)`

`to_float` (main.py 778-785) does
`float(str(val).replace("USD", "").replace("$", "").replace(",", "").strip())`
and maps any parse failure to `None`.  `decRender` renders a JSON number the
way `str` renders the corresponding Python int/float when the value has a
finite decimal expansion; other values render to placeholders that no
`float(...)` accepts, exactly as in Python (where `str` of a list/dict never
parses as a float). -/

def digitsToNat (l : List Char) : Nat := l.foldl (fun acc c => 10 * acc + (c.toNat - 48)) 0

def padLeftZeros (s : String) (k : Nat) : String :=
  String.mk (List.replicate (k - s.length) '0') ++ s

def decRender (q : ℚ) : String :=
  match (List.range 13).find? (fun k => (10 ^ k : Nat) % q.den == 0) with
  | some 0 => toString q.num
  | some k =>
    let sign := if q.num < 0 then "-" else ""
    let m := q.num.natAbs * ((10 ^ k) / q.den)
    sign ++ toString (m / 10 ^ k) ++ "." ++ padLeftZeros (toString (m % 10 ^ k)) k
  | none => toString q

def pyStr : Json → String
  | .jstr s => s
  | .jnum q => decRender q
  | .jbool true => "True"
  | .jbool false => "False"
  | .null => "None"
  | .jarr _ => "<list repr>"
  | .jobj _ => "<dict repr>"

def parseExponent (l : List Char) : Option Int :=
  let signAndRest : Int × List Char :=
    match l with
    | '+' :: r => (1, r)
    | '-' :: r => (-1, r)
    | r => (1, r)
  if signAndRest.2 ≠ [] ∧ signAndRest.2.all Char.isDigit then
    some (signAndRest.1 * digitsToNat signAndRest.2)
  else none

-- Python `float(s)` on an already-stripped string, for the decimal and
-- scientific literals the remote API produces.
def parseFloat (s : String) : Option ℚ :=
  let signAndRest : ℚ × List Char :=
    match s.data with
    | '+' :: r => (1, r)
    | '-' :: r => (-1, r)
    | r => (1, r)
  let l1 := signAndRest.2
  let ip := l1.takeWhile Char.isDigit
  let l2 := l1.dropWhile Char.isDigit
  let fracAndRest : List Char × List Char :=
    match l2 with
    | '.' :: r => (r.takeWhile Char.isDigit, r.dropWhile Char.isDigit)
    | r => ([], r)
  let fp := fracAndRest.1
  if ip.isEmpty ∧ fp.isEmpty then none
  else
    let mant : ℚ := (digitsToNat ip : ℚ) + (digitsToNat fp : ℚ) / 10 ^ fp.length
    match fracAndRest.2 with
    | [] => some (signAndRest.1 * mant)
    | e :: r =>
      if e = 'e' ∨ e = 'E' then
        (parseExponent r).map (fun k => signAndRest.1 * mant * (10 : ℚ) ^ k)
      else none

-- main.py 778-785 (`to_float` inside `get_product_details`)
def to_float (val : Json) : Option ℚ :=
  match val with
  | .null => none
  | v => parseFloat (pyStrip (pyReplace (pyReplace (pyReplace (pyStr v) "USD" "") "$" "") "," ""))

/-! ## The signed API client (`AliExpressAPI`, main.py 594-852)

Network interaction is abstracted by an oracle giving, per attempt number,
the outcome of the `session.get` / `session.head` / `session.post` call
(with `raise_for_status` and `.json()` folded in): either a decoded JSON
document, a timeout, or some other exception.  Session acquisition
(`get_session`) is lock-guarded lazy construction and is modelled as
always yielding the oracle; the quantification of the error-handling claim
ranges over the behaviour of the network calls of the session. -/

-- Monitoring configuration, main.py 110-117.
def CONCURRENT_REQUESTS : Nat := 10
def PRODUCTS_PER_CYCLE : Nat := 100
def RATE_LIMIT_RETRY_DELAY : Nat := 30
def MAX_RETRIES : Nat := 3

-- main.py 707-714
def is_rate_limited (error_msg : String) : Bool :=
  ["frequency exceeds the limit", "rate limit", "too many requests"].any
    (fun pat => containsSub pat (pyLower error_msg))

-- main.py 697-705
def is_shortened_url (url : String) : Bool :=
  ["s.click.aliexpress.com", "a.aliexpress.com", "/e/_", "ali.ski"].any
    (fun pat => containsSub pat (pyLower url))

inductive NetResp where
  | timeout
  | exc (e : String)
  | ok (data : Json)

inductive ApiResult where
  | ok (product_id : String) (title : Json) (price : ℚ) (original_price : ℚ)
      (image_url : Json) (product_url : String)
  | fail (error : String)

inductive ProcOutcome where
  | rateLimited (msg : String)
  | raised (e : String)
  | done (r : ApiResult)

/-- Processing of one decoded response inside the `try` of
`get_product_details` (main.py 747-805): the `error_response` branch, the
scan for the key ending in `_response`, navigation to the product list,
price extraction, and assembly of the success dictionary.  A `.raised`
outcome is an exception inside the `try`, caught by the enclosing
`except` clauses; `.rateLimited` is the state in which line 750 consults
the retry budget. -/
def processData (data : Json) (product_id : String) : ProcOutcome :=
  match pyIn "error_response" data with
  | .error e => .raised e
  | .ok true =>
    match pyGetItem data "error_response" with
    | .error e => .raised e
    | .ok er =>
      match pyDictGetD er "msg" (.jstr "API Error") with
      | .error e => .raised e
      | .ok msgJ =>
        match msgJ with
        | .jstr msg => if is_rate_limited msg then .rateLimited msg else .done (.fail msg)
        | _ => .raised "AttributeError: object has no attribute lower"
  | .ok false =>
    match pyKeys data with
    | .error e => .raised e
    | .ok keys =>
      match keys.find? (fun k => pyEndsWith k "_response") with
      | none => .done (.fail "Invalid response")
      | some resp_key =>
        match pyGetItem data resp_key with
        | .error e => .raised e
        | .ok resp_data =>
          match pyDictGetD resp_data "resp_result" (.jobj []) with
          | .error e => .raised e
          | .ok rr =>
            match pyDictGetD rr "result" (.jobj []) with
            | .error e => .raised e
            | .ok result =>
              match pyDictGetD result "products" (.jobj []) with
              | .error e => .raised e
              | .ok prods0 =>
                match pyDictGetD prods0 "product" (.jarr []) with
                | .error e => .raised e
                | .ok products =>
                  if !pyTruthy products then .done (.fail "Product not found")
                  else
                    let product := match products with
                      | .jarr (x :: _) => x
                      | .jarr [] => .null
                      | j => j
                    match pyDictGet product "target_sale_price" with
                    | .error e => .raised e
                    | .ok tsp =>
                      match pyDictGet product "sale_price" with
                      | .error e => .raised e
                      | .ok sp =>
                        match pyDictGet product "target_original_price" with
                        | .error e => .raised e
                        | .ok top =>
                          match pyDictGet product "original_price" with
                          | .error e => .raised e
                          | .ok op =>
                            match to_float (pyOrJ tsp sp) with
                            | none => .done (.fail "No price available")
                            | some current_price =>
                              let orig_price := to_float (pyOrJ top op)
                              match pyDictGetD product "product_id" (.jstr product_id) with
                              | .error e => .raised e
                              | .ok pidJ =>
                                match pyDictGetD product "product_title" (.jstr "N/A") with
                                | .error e => .raised e
                                | .ok titleJ =>
                                  match pyDictGetD product "product_main_image_url" (.jstr "") with
                                  | .error e => .raised e
                                  | .ok imgJ =>
                                    .done (.ok (pyStr pidJ) titleJ current_price
                                      (match orig_price with
                                       | some v => if v = 0 then current_price else v
                                       | none => current_price)
                                      imgJ (build_product_url (pyStr pidJ)))

/-- One attempt of `get_product_details`: the `except asyncio.TimeoutError`
and `except Exception` arms of main.py 807-812 yield terminal tagged
failures; a decoded body goes through `processData`. -/
def attemptOutcome (resp : NetResp) (product_id : String) : ProcOutcome :=
  match resp with
  | .timeout => .done (.fail "Request timeout")
  | .exc e => .done (.fail e)
  | .ok data => processData data product_id

/-- Worker for `get_product_details` (main.py 716-812).  The source recurses
on `retry_count`; `fuel` is `MAX_RETRIES - retry_count`, carried separately
only to make the recursion structural, and the `fuel = 0` inner branch is
unreachable whenever the two stay in sync because line 750 tests
`retry_count < MAX_RETRIES` first.  The returned list collects the
`asyncio.sleep` backoff delays of line 751-752, in order; the `Except`
layer is the function boundary, `.error` would be an uncaught exception. -/
def getPDFrom (oracle : Nat → NetResp) (product_id country : String) :
    Nat → Nat → List Nat × Except String ApiResult
  | fuel, retry_count =>
    match attemptOutcome (oracle retry_count) product_id with
    | .raised e => ([], .ok (.fail e))
    | .done r => ([], .ok r)
    | .rateLimited msg =>
      if retry_count < MAX_RETRIES then
        match fuel with
        | 0 => ([], .ok (.fail msg))
        | f + 1 =>
          let rest := getPDFrom oracle product_id country f (retry_count + 1)
          (RATE_LIMIT_RETRY_DELAY * 2 ^ retry_count :: rest.1, rest.2)
      else ([], .ok (.fail msg))

def get_product_details (oracle : Nat → NetResp) (product_id country : String)
    (retry_count : Nat) : List Nat × Except String ApiResult :=
  getPDFrom oracle product_id country (MAX_RETRIES - retry_count) retry_count

/-- Loop body of `resolve_shortened_url` (main.py 672-695).  The oracle
gives, per attempt, either the final URL after following redirects or the
exception the `head` call raised.  `remaining` counts the loop iterations
still allowed by `range(max_retries)`; falling off the loop returns the
original URL.  The list collects the `asyncio.sleep(2)` delays. -/
def resolveLoop (oracle : Nat → Except String String) (url : String) (max_retries : Nat) :
    Nat → Nat → List Nat × Except String String
  | 0, _ => ([], .ok url)
  | remaining + 1, attempt =>
    match oracle attempt with
    | .ok final_url =>
      if ((extract_product_id final_url).getD "").isEmpty then
        resolveLoop oracle url max_retries remaining (attempt + 1)
      else ([], .ok final_url)
    | .error _ =>
      if attempt < max_retries - 1 then
        let rest := resolveLoop oracle url max_retries remaining (attempt + 1)
        (2 :: rest.1, rest.2)
      else ([], .ok url)

def resolve_shortened_url (oracle : Nat → Except String String) (url : String)
    (max_retries : Nat := 3) : List Nat × Except String String :=
  resolveLoop oracle url max_retries max_retries 0

-- Python `x == 200` where `x` is a JSON value (`True == 1` style numeric
-- cross-type equality included; everything else compares unequal).
def jsonEqNum (j : Json) (n : ℚ) : Bool :=
  match j with
  | .jnum q => q == n
  | .jbool b => (if b then (1 : ℚ) else 0) == n
  | _ => false

/-- Embedding of `generate_affiliate_link` (main.py 814-851).  `net` is the outcome of
the `session.post` (with `.json()` folded in).  Every exception inside the
`try` — including shape errors while navigating the payload — is caught by
the trailing `except` and yields the original `product_url`; the success
path returns the raw `promotion_link` value (which, as in Python, may be
`None`). -/
def generate_affiliate_link (net : Except String Json) (product_url : String) :
    Except String Json :=
  match net with
  | .error _ => .ok (.jstr product_url)
  | .ok data =>
    match pyIn "error_response" data with
    | .error _ => .ok (.jstr product_url)
    | .ok true => .ok (.jstr product_url)
    | .ok false =>
      match pyDictGetD data "aliexpress_affiliate_link_generate_response" (.jobj []) with
      | .error _ => .ok (.jstr product_url)
      | .ok resp_data =>
        match pyDictGetD resp_data "resp_result" (.jobj []) with
        | .error _ => .ok (.jstr product_url)
        | .ok result =>
          match pyDictGet result "resp_code" with
          | .error _ => .ok (.jstr product_url)
          | .ok code =>
            if jsonEqNum code 200 then
              match pyDictGetD result "result" (.jobj []) with
              | .error _ => .ok (.jstr product_url)
              | .ok res =>
                match pyDictGetD res "promotion_links" (.jobj []) with
                | .error _ => .ok (.jstr product_url)
                | .ok pls =>
                  match pyDictGetD pls "promotion_link" (.jarr []) with
                  | .error _ => .ok (.jstr product_url)
                  | .ok links =>
                    if pyTruthy links then
                      match pyIndexZero links with
                      | .error _ => .ok (.jstr product_url)
                      | .ok first =>
                        match pyDictGet first "promotion_link" with
                        | .error _ => .ok (.jstr product_url)
                        | .ok link => .ok link
                    else .ok (.jstr product_url)
            else .ok (.jstr product_url)

/-! ## Stored records and the database manager (`DatabaseManager`, main.py 161-587)

The Supabase `products` table is a list of rows; `.eq(col, v)` filters
rows, `.update(data)` assigns the given columns on every matching row, and
`.insert` appends.  `current_price` is set by every write path, so it is
modelled as a plain rational.  Reminder timestamps are integers (the unit
is days, matching `timedelta(days=...)` windows); `last_checked` instants
are naturals. -/

structure Product where
  user_id : Nat
  product_id : Nat
  product_url : String
  title : String
  current_price : ℚ
  original_price : ℚ
  currency : String
  image_url : String
  country : String
  date_added : Option Nat
  last_checked : Option Nat
deriving DecidableEq

structure UserRec where
  user_id : Nat
  username : String
  country : Option String
  date_added : Option Int
  last_update_reminder : Option Int
  update_deadline : Option Int
  needs_update_response : Bool
deriving DecidableEq

structure HistoryRec where
  user_id : Nat
  product_id : Nat
  product_title : String
  old_price : ℚ
  new_price : ℚ
  change_amount : ℚ
  change_percent : ℚ
  currency : String
  date : Nat
deriving DecidableEq

-- Python `x or default` on an optional string (both `None` and the empty
-- string are falsy).
def pyOrStr (x : Option String) (dflt : String) : String :=
  match x with
  | some s => if s.isEmpty then dflt else s
  | none => dflt

-- Python `x or 0` on a float.
def pyOrQ (x dflt : ℚ) : ℚ := if x = 0 then dflt else x

-- Truthiness of an optional-string argument (`if country:` on a parameter
-- defaulting to `None`).
def pyTruthyOS (x : Option String) : Bool :=
  match x with
  | some s => !s.isEmpty
  | none => false

-- main.py 201-213: first row with the user id, its `country` column.
def get_user_country (users : List UserRec) (user_id : Nat) : Option String :=
  match users.find? (fun u => u.user_id == user_id) with
  | some u => u.country
  | none => none

-- main.py 448-473
def get_user_products (db : List Product) (user_id : Nat) : List Product :=
  db.filter (fun p => p.user_id == user_id)

/-- Embedding of `update_product_price` (main.py 424-446).  The update is keyed by
an `.eq` filter on the `product_id` column alone — the `user_id` argument is
accepted but never used in the query, so every row carrying the product id
is assigned, whichever user owns it. -/
def update_product_price (db : List Product) (user_id : Nat) (product_id : Nat)
    (new_price : ℚ) (country : Option String := none) (product_url : Option String := none)
    (now : Nat := 0) : List Product :=
  db.map (fun r =>
    if r.product_id == product_id then
      { r with
        current_price := new_price
        last_checked := some now
        country := if pyTruthyOS country then country.getD r.country else r.country
        product_url := if pyTruthyOS product_url then product_url.getD r.product_url else r.product_url }
    else r)

/-- Embedding of `save_product` (main.py 326-366).  Existence is probed with
an `.eq` filter on the `product_id` column — no user filter — and the update path
assigns the whole `product_data` dictionary, `user_id` included, to every
row with that product id; only the insert path stamps `date_added`. -/
def save_product (db : List Product) (user_id : Nat) (product_id : Nat)
    (product_url title : String) (price original_price : ℚ)
    (currency image_url country : String) (now : Nat) : List Product :=
  let data : Product :=
    { user_id := user_id, product_id := product_id, product_url := product_url,
      title := title, current_price := price, original_price := original_price,
      currency := currency, image_url := image_url, country := country,
      date_added := none, last_checked := some now }
  if db.any (fun r => r.product_id == product_id) then
    db.map (fun r => if r.product_id == product_id then { data with date_added := r.date_added } else r)
  else
    db ++ [{ data with date_added := some now }]

-- main.py 475-488
def delete_product (db : List Product) (user_id : Nat) (product_id : Nat) : List Product :=
  db.filter (fun r => !(r.user_id == user_id && r.product_id == product_id))

/-- Bankers rounding at two decimals: Python `round(x, 2)` on an exactly
representable value (ties go to the even hundredth). -/
def roundHalfEven (q : ℚ) : ℤ :=
  let f := ⌊q⌋
  let r := q - f
  if r < 1 / 2 then f else if 1 / 2 < r then f + 1 else if f % 2 = 0 then f else f + 1

def pyRound2 (q : ℚ) : ℚ := (roundHalfEven (q * 100) : ℚ) / 100

-- main.py 505 and 1462 share this formula.
def change_percent_calc (old_price new_price : ℚ) : ℚ :=
  if old_price > 0 then (new_price - old_price) / old_price * 100 else 0

/-- Embedding of `save_price_change` (main.py 494-521): below one cent of absolute
difference nothing is appended; otherwise one immutable history row is
appended with the rounded delta and percentage. -/
def save_price_change (history : List HistoryRec) (user_id : Nat) (product_id : Nat)
    (title : String) (old_price new_price : ℚ) (currency : String) (now : Nat) :
    List HistoryRec :=
  if |new_price - old_price| < 1 / 100 then history
  else
    history ++ [{ user_id := user_id, product_id := product_id, product_title := title,
                  old_price := pyRound2 old_price, new_price := pyRound2 new_price,
                  change_amount := pyRound2 (new_price - old_price),
                  change_percent := pyRound2 (change_percent_calc old_price new_price),
                  currency := currency, date := now }]

-- Monthly update configuration, main.py 120-122.
def MONTHLY_UPDATE_REMINDER_DAYS : Int := 30
def UPDATE_RESPONSE_DEADLINE_DAYS : Int := 3

-- The per-user staleness test of main.py 280-288: unset reminder instants
-- select the user, as do instants before `now - MONTHLY_UPDATE_REMINDER_DAYS`
-- (an unparseable stored instant, which the source also selects, is folded
-- into `none`).
def needsReminder (u : UserRec) (now : Int) : Bool :=
  match u.last_update_reminder with
  | none => true
  | some t => t < now - MONTHLY_UPDATE_REMINDER_DAYS

/-- Embedding of `get_users_needing_reminder` (main.py 264-293): every user passing the
staleness test is selected.  The `products` table is not consulted. -/
def get_users_needing_reminder (users : List UserRec) (now : Int) : List Nat :=
  (users.filter (fun u => needsReminder u now)).map (fun u => u.user_id)

/-- The reminder-scheduling half of `check_monthly_updates` (main.py
1594-1607): for each selected user a reminder job is queued only if
`get_user_products` is non-empty. -/
def monthly_reminder_recipients (users : List UserRec) (products : List Product)
    (now : Int) : List Nat :=
  (get_users_needing_reminder users now).filter
    (fun uid => !(get_user_products products uid).isEmpty)

/-! ## The polling scheduler (`check_single_product`, main.py 1422-1510)

The per-product check receives the tagged outcome of the API client (the
fields of the result dictionary it reads: `success`, `price`,
`product_url`, `error`) and the affiliate link the notification renderer
would embed; both arrive from the network oracles already modelled above.
Notifications are recorded as dispatched messages — delivery failures are
swallowed by the source (main.py 1503-1504) and do not alter the record. -/

inductive FetchOutcome where
  | ok (price : ℚ) (product_url : String)
  | fail (error : String)
deriving DecidableEq

structure Notification where
  chat_id : Nat
  old_price : ℚ
  new_price : ℚ
  change : ℚ
  change_percent : ℚ
  link : String
deriving DecidableEq

inductive CheckResult where
  | okR (product_id : Nat) (changed : Bool)
  | errR (product_id : Nat) (error : String)
deriving DecidableEq

structure DBState where
  users : List UserRec
  products : List Product
  history : List HistoryRec
deriving DecidableEq

-- main.py 1425: the current locale of the user takes precedence over the
-- stored product country when present.
def resolved_country (users : List UserRec) (product : Product) : String :=
  pyOrStr (get_user_country users product.user_id) product.country

-- The change detector, main.py 1449:
-- `price_changed = abs(new_price - old_price) > 0.01`.
def isChange (old_price new_price : ℚ) : Bool :=
  |new_price - old_price| > 1 / 100

def check_single_product (st : DBState) (product : Product) (fetch : FetchOutcome)
    (affiliate_link : String) (now : Nat) : DBState × List Notification × CheckResult :=
  let user_country := resolved_country st.users product
  match fetch with
  | .fail err =>
    ({ st with
       products := update_product_price st.products product.user_id product.product_id
         (pyOrQ product.current_price 0) (some user_country) none now },
     [], .errR product.product_id err)
  | .ok new_price fetched_url =>
    let old_price := pyOrQ product.current_price 0
    let products1 := update_product_price st.products product.user_id product.product_id
      new_price (some user_country) (some fetched_url) now
    if isChange old_price new_price then
      let history1 := save_price_change st.history product.user_id product.product_id
        product.title old_price new_price (pyOrStr (some product.currency) "USD") now
      ({ users := st.users, products := products1, history := history1 },
       [{ chat_id := product.user_id, old_price := old_price, new_price := new_price,
          change := new_price - old_price,
          change_percent := change_percent_calc old_price new_price,
          link := affiliate_link }],
       .okR product.product_id true)
    else
      ({ st with products := products1 }, [], .okR product.product_id false)

/-! ## The spreadsheet variant (`ExcelManager.get_products_to_check`,
hadef.py 293-308)

`get_last_checked_time` maps a missing / `Never` / unparseable cell to
`datetime.min` and otherwise parses the stored instant; `none` stands for
the former and `some t` for a parsed instant, which is always strictly
later than `datetime.min`, so the key sends `none` below every `some`.
Python `sorted` with a key is a stable sort, as is `List.insertionSort`
with the reflexive key comparison. -/

def get_last_checked_time (p : Product) : Nat :=
  match p.last_checked with
  | none => 0
  | some t => t + 1

def get_products_to_check (all_products : List Product) (limit : Nat) : List Product :=
  if all_products.isEmpty then []
  else
    (List.insertionSort
      (fun a b => get_last_checked_time a ≤ get_last_checked_time b) all_products).take limit

-- The ordering the store contract promises: never-checked rows first,
-- then ascending last-checked instants.
def OldestFirst (a b : Product) : Prop :=
  match a.last_checked, b.last_checked with
  | none, _ => True
  | some x, some y => x ≤ y
  | some _, none => False

/-! ## Concrete fixtures used by counterexample and witness theorems -/

-- A rate-limited API body and a successful product body.
def rateLimitedBody : Json :=
  .jobj [("error_response", .jobj [("msg", .jstr "Rate limit exceeded")])]

def successBody : Json :=
  .jobj [("aliexpress_affiliate_productdetail_get_response",
    .jobj [("resp_result",
      .jobj [("result",
        .jobj [("products",
          .jobj [("product",
            .jarr [.jobj [("product_id", .jstr "123"),
                          ("target_sale_price", .jstr "12.34"),
                          ("product_title", .jstr "Widget"),
                          ("product_main_image_url", .jstr "http://img")]])])])])])]

-- Rate limited on attempts 0, 1 and 2; successful from attempt 3 on.
def backoffOracle : Nat → NetResp :=
  fun k => if k < 3 then .ok rateLimitedBody else .ok successBody

-- Rate limited on every attempt.
def alwaysLimitedOracle : Nat → NetResp := fun _ => .ok rateLimitedBody

-- The result the successful body parses to.
def backoffSuccessResult : ApiResult :=
  match processData successBody "123" with
  | .done r => r
  | _ => .fail "unreachable"

-- Two users tracking the same marketplace item, product id 555.
def productUser1 : Product :=
  { user_id := 1, product_id := 555, product_url := "https://a/1", title := "Gadget",
    current_price := 20, original_price := 25, currency := "USD", image_url := "",
    country := "US", date_added := some 5, last_checked := some 10 }

def productUser2 : Product :=
  { user_id := 2, product_id := 555, product_url := "https://a/2", title := "Gadget",
    current_price := 30, original_price := 35, currency := "USD", image_url := "",
    country := "FR", date_added := some 6, last_checked := some 11 }

-- User 1 currently prefers country FR, different from the US stored on
-- the product row of that user.
def userOne : UserRec :=
  { user_id := 1, username := "alice", country := some "FR", date_added := some 0,
    last_update_reminder := none, update_deadline := none, needs_update_response := false }

def twoUserState : DBState :=
  { users := [userOne], products := [productUser1, productUser2], history := [] }

-- Products for the oldest-first selection example: never checked, checked
-- at instant 3, checked at instant 7.
def productNeverChecked : Product :=
  { user_id := 9, product_id := 1, product_url := "u1", title := "A",
    current_price := 1, original_price := 1, currency := "USD", image_url := "",
    country := "US", date_added := none, last_checked := none }

def productCheckedEarly : Product :=
  { user_id := 9, product_id := 2, product_url := "u2", title := "B",
    current_price := 2, original_price := 2, currency := "USD", image_url := "",
    country := "US", date_added := none, last_checked := some 3 }

def productCheckedLate : Product :=
  { user_id := 9, product_id := 3, product_url := "u3", title := "C",
    current_price := 3, original_price := 3, currency := "USD", image_url := "",
    country := "US", date_added := none, last_checked := some 7 }

-- A user owning no products, never reminded.
def userNoProducts : UserRec :=
  { user_id := 7, username := "bob", country := some "US", date_added := some 0,
    last_update_reminder := none, update_deadline := none, needs_update_response := false }

-- A user owning one product, never reminded.
def userWithProduct : UserRec :=
  { user_id := 9, username := "carol", country := some "US", date_added := some 0,
    last_update_reminder := none, update_deadline := none, needs_update_response := false }

/-! # Theorems -/

set_option maxRecDepth 100000

/-! ## Validation of the hash implementation against published vectors -/

theorem md5_rfc1321_empty : bytesToHex (md5Bytes []) = "d41d8cd98f00b204e9800998ecf8427e" := by
  decide

theorem md5_rfc1321_abc :
    bytesToHex (md5Bytes (strBytes "abc")) = "900150983cd24fb0d6963f7d28e17f72" := by
  decide

theorem hmac_md5_rfc2202_case2 :
    bytesToHex (hmacMd5 (strBytes "Jefe") (strBytes "what do ya want for nothing?")) =
      "750c783e6ab0b503eaa86e310a5db738" := by
  decide

/-! ## C1 — request signing -/

/-- C1: for every parameter map the generated signature is the
uppercase-hex HMAC-MD5, keyed by the app secret, of the canonical
concatenation of key-then-value pairs over the entries sorted by key after
dropping the `sign` key and empty values; on the example map
`app_key=519492, method=x, timestamp=1, sign=IGNORE` the canonical string
is `app_key519492methodxtimestamp1`, the `sign` entry does not survive into
the signed items, and the resulting signature is the stated digest. -/
theorem c1_signature_canonicalization :
    (∀ (secret : String) (params : List (String × Option String)),
        generate_signature secret params =
          pyUpper (bytesToHex (hmacMd5 (strBytes secret) (strBytes (canonical_string params))))) ∧
    canonical_string exampleSignParams = "app_key519492methodxtimestamp1" ∧
    "sign" ∉ (sorted_items exampleSignParams).map Prod.fst ∧
    generate_signature ALIEXPRESS_APP_SECRET exampleSignParams =
      "95FC4A097D7048989BB426445CA0BEFC" :=
  ⟨fun _ _ => rfl, by decide, by decide, by decide⟩

/-! ## C3 — the change epsilon -/

/-- C3, counterexample: the claim asserts `isChange(10.00, 10.01) = true`,
but a delta of exactly one cent does not exceed the strict epsilon of
line 1449, so the detector reports no change there. -/
theorem c3_epsilon_boundary_counterexample : isChange 10 (1001 / 100) = false := by
  simp only [isChange, decide_eq_false_iff_not, not_lt]
  rw [abs_of_nonneg (by norm_num : (0 : ℚ) ≤ 1001 / 100 - 10)]
  norm_num

/-- C3 (amended): the detector reports a change exactly when the absolute
difference strictly exceeds 0.01; `isChange(10.00, 10.004)` is false,
`isChange(10.00, 10.01)` is false (the delta equals the epsilon and does
not exceed it), and `isChange(10.00, 9.00)` is true. -/
theorem c3_change_epsilon :
    (∀ old_price new_price : ℚ,
        isChange old_price new_price = true ↔ |new_price - old_price| > 1 / 100) ∧
    isChange 10 (10004 / 1000) = false ∧
    isChange 10 (1001 / 100) = false ∧
    isChange 10 9 = true :=
  ⟨fun _ _ => by simp [isChange],
   by
    simp only [isChange, decide_eq_false_iff_not, not_lt]
    rw [abs_of_nonneg (by norm_num : (0 : ℚ) ≤ 10004 / 1000 - 10)]
    norm_num,
   by
    simp only [isChange, decide_eq_false_iff_not, not_lt]
    rw [abs_of_nonneg (by norm_num : (0 : ℚ) ≤ 1001 / 100 - 10)]
    norm_num,
   by
    simp only [isChange, decide_eq_true_eq]
    rw [abs_sub_comm, abs_of_nonneg (by norm_num : (0 : ℚ) ≤ 10 - 9)]
    norm_num⟩

/-! ## C9 — delta and percentage of a recorded change -/

/-- A value that is an exact whole number of hundredths is a fixed point of
the two-decimal rounding. -/
theorem pyRound2_hundredths (n : ℤ) : pyRound2 ((n : ℚ) / 100) = (n : ℚ) / 100 := by
  unfold pyRound2 roundHalfEven
  rw [show ((n : ℚ) / 100 * 100) = (n : ℚ) by field_simp]
  simp only [Int.floor_intCast, sub_self]
  norm_num

/-- C9: the recorded delta is `new - old`; the percentage is
`delta / old * 100` guarded by `old > 0` and is 0 for a non-positive old
price, so the division never runs with a zero or negative denominator; a
change from 20.00 to 17.50 records change -2.50 and percent -12.5, and a
change from 10.00 to 9.00 has percent -10. -/
theorem c9_percent_division_guard :
    (∀ old_price new_price : ℚ, 0 < old_price →
        change_percent_calc old_price new_price = (new_price - old_price) / old_price * 100) ∧
    (∀ old_price new_price : ℚ, old_price ≤ 0 →
        change_percent_calc old_price new_price = 0) ∧
    save_price_change [] 1 555 "Gadget" 20 (35 / 2) "USD" 40 =
      [{ user_id := 1, product_id := 555, product_title := "Gadget",
         old_price := 20, new_price := 35 / 2, change_amount := -5 / 2,
         change_percent := -25 / 2, currency := "USD", date := 40 }] ∧
    change_percent_calc 10 9 = -10 :=
  ⟨fun o n h => by simp [change_percent_calc, h],
   fun o n h => by simp [change_percent_calc, not_lt.mpr h],
   by
    have hbig : ¬ (|(35 : ℚ) / 2 - 20| < 1 / 100) := by
      rw [abs_sub_comm, abs_of_nonneg (by norm_num : (0 : ℚ) ≤ 20 - 35 / 2)]
      norm_num
    have h1 : pyRound2 (20 : ℚ) = 20 := by
      have := pyRound2_hundredths 2000; norm_num at this; exact this
    have h2 : pyRound2 ((35 : ℚ) / 2) = 35 / 2 := by
      have := pyRound2_hundredths 1750; norm_num at this; exact this
    have h3 : pyRound2 ((35 : ℚ) / 2 - 20) = -5 / 2 := by
      have := pyRound2_hundredths (-250)
      rw [show ((35 : ℚ) / 2 - 20) = ((-250 : ℤ) : ℚ) / 100 by norm_num] at *
      rw [this]; norm_num
    have h4 : pyRound2 (change_percent_calc 20 (35 / 2)) = -25 / 2 := by
      have hc : change_percent_calc 20 ((35 : ℚ) / 2) = ((-1250 : ℤ) : ℚ) / 100 := by
        simp only [change_percent_calc, if_pos (by norm_num : (20 : ℚ) > 0)]
        norm_num
      rw [hc, pyRound2_hundredths]; norm_num
    simp only [save_price_change, if_neg hbig, List.nil_append, h1, h2, h3, h4],
   by
    simp only [change_percent_calc, if_pos (by norm_num : (10 : ℚ) > 0)]
    norm_num⟩

/-- C9, witness: the guarded formula evaluated on both sides of the
guard. -/
theorem c9_percent_division_guard_witness :
    change_percent_calc 2 3 = (3 - 2) / 2 * 100 ∧ change_percent_calc (-1) 5 = 0 :=
  ⟨c9_percent_division_guard.1 2 3 (by norm_num),
   c9_percent_division_guard.2.1 (-1) 5 (by norm_num)⟩

/-! ## C2 — per-user isolation of product writes -/

/-- C2: evaluation of the store operations at the failing input.  Both
users 1 and 2 track product 555; `update_product_price` invoked for user 1
rewrites the row of user 2 as well (the query filters on `product_id` alone),
and `save_product` invoked for user 1 overwrites the existing row of user 2 —
`user_id` included — instead of inserting a row for user 1. -/
theorem c2_cross_user_write :
    update_product_price [productUser1, productUser2] 1 555 (99 / 10) none none 100 =
      [{ productUser1 with current_price := 99 / 10, last_checked := some 100 },
       { productUser2 with current_price := 99 / 10, last_checked := some 100 }] ∧
    productUser2.current_price = 30 ∧
    save_product [productUser2] 1 555 "https://a/new" "T2" 11 12 "USD" "img" "US" 200 =
      [{ user_id := 1, product_id := 555, product_url := "https://a/new", title := "T2",
         current_price := 11, original_price := 12, currency := "USD", image_url := "img",
         country := "US", date_added := some 6, last_checked := some 200 }] :=
  ⟨rfl, rfl, rfl⟩

/-! ## C8 — reminder selection -/

/-- C8, counterexample: user 7 owns no products and has never been
reminded; `get_users_needing_reminder` nevertheless selects user 7,
because the query never consults the `products` table. -/
theorem c8_no_product_user_selected :
    get_users_needing_reminder [userNoProducts] 1000 = [7] ∧
    get_user_products ([] : List Product) 7 = [] :=
  ⟨rfl, rfl⟩

/-- C8 (amended): `getUsersNeedingReminder` returns exactly the users whose
`last_update_reminder` is unset or older than the staleness window,
regardless of product ownership; product ownership is enforced one level
up, where `check_monthly_updates` schedules a reminder only for selected
users owning at least one product, so a product-less user is never sent a
reminder even though the query selects them. -/
theorem c8_reminder_selection :
    (∀ (users : List UserRec) (now : Int) (uid : Nat),
        uid ∈ get_users_needing_reminder users now ↔
          ∃ u ∈ users, u.user_id = uid ∧ needsReminder u now = true) ∧
    (∀ (users : List UserRec) (products : List Product) (now : Int) (uid : Nat),
        uid ∈ monthly_reminder_recipients users products now →
          get_user_products products uid ≠ []) := by
  constructor
  · intro users now uid
    simp only [get_users_needing_reminder, List.mem_map, List.mem_filter]
    constructor
    · rintro ⟨u, ⟨hmem, hrem⟩, hid⟩
      exact ⟨u, hmem, hid, hrem⟩
    · rintro ⟨u, hmem, hid, hrem⟩
      exact ⟨u, ⟨hmem, hrem⟩, hid⟩
  · intro users products now uid h
    simp only [monthly_reminder_recipients, List.mem_filter] at h
    intro hnil
    rw [hnil] at h
    simp at h

/-- C8, witness: user 9 owns a product, is selected, and indeed has a
non-empty product list. -/
theorem c8_reminder_selection_witness :
    get_user_products [productNeverChecked] 9 ≠ [] :=
  c8_reminder_selection.2 [userWithProduct] [productNeverChecked] 1000 9 (by decide)

/-! ## C5 — oldest-checked-first selection -/

/-- The numeric sort key realises the nulls-first, then ascending-instant
order. -/
theorem oldestFirst_of_key {a b : Product}
    (h : get_last_checked_time a ≤ get_last_checked_time b) : OldestFirst a b := by
  cases ha : a.last_checked <;> cases hb : b.last_checked <;>
    simp only [get_last_checked_time, OldestFirst, ha, hb] at h ⊢ <;> omega

/-- C5: `get_products_to_check limit` returns at most `limit` products, in
nulls-first oldest-checked-first order; on the `last_checked` instants
`none`, `3`, `7` with limit 2 it returns the never-checked product and the
instant-3 product, and never the instant-7 product. -/
theorem c5_products_to_check :
    (∀ (all_products : List Product) (limit : Nat),
        (get_products_to_check all_products limit).length ≤ limit) ∧
    (∀ (all_products : List Product) (limit : Nat),
        List.Sorted OldestFirst (get_products_to_check all_products limit)) ∧
    get_products_to_check [productCheckedLate, productNeverChecked, productCheckedEarly] 2 =
      [productNeverChecked, productCheckedEarly] ∧
    productCheckedLate ∉
      get_products_to_check [productCheckedLate, productNeverChecked, productCheckedEarly] 2 := by
  have key : ∀ (l : List Product) (limit : Nat),
      List.Sorted (fun a b => get_last_checked_time a ≤ get_last_checked_time b)
        (List.insertionSort (fun a b => get_last_checked_time a ≤ get_last_checked_time b) l) := by
    intro l _
    haveI : IsTotal Product (fun a b => get_last_checked_time a ≤ get_last_checked_time b) :=
      ⟨fun _ _ => Nat.le_total _ _⟩
    haveI : IsTrans Product (fun a b => get_last_checked_time a ≤ get_last_checked_time b) :=
      ⟨fun _ _ _ hab hbc => le_trans hab hbc⟩
    exact List.sorted_insertionSort _ l
  refine ⟨?_, ?_, by decide, by decide⟩
  · intro l limit
    unfold get_products_to_check
    split
    · simp
    · rw [List.length_take]
      exact Nat.min_le_left _ _
  · intro l limit
    unfold get_products_to_check
    split
    · simp
    · exact ((key l limit).sublist (List.take_sublist _ _)).imp oldestFirst_of_key

/-! ## C7 — what a failed check persists -/

/-- C7, counterexample: the stored locale of user 1 is FR while the product row
stores US, and user 2 tracks the same product id.  A failed check for
the product of user 1 rewrites the `country` field of the row of user 1 — a field
other than `last_checked` — and also rewrites the row of user 2, clobbering its
price with the stale price of user 1. -/
theorem c7_failed_check_counterexample :
    check_single_product twoUserState productUser1 (.fail "Request timeout") "L" 100 =
      ({ users := [userOne],
         products :=
           [{ productUser1 with country := "FR", last_checked := some 100 },
            { productUser2 with current_price := 20, country := "FR", last_checked := some 100 }],
         history := [] }, [], .errR 555 "Request timeout") ∧
    productUser1.country = "US" ∧ productUser2.current_price = 30 :=
  ⟨rfl, rfl, rfl⟩

/-- C7 (amended): on a failed check nothing is appended to the price
history, no notification is dispatched, the user table is untouched, and
the single `updatePrice` write — keyed by `product_id` alone — rewrites
every record carrying that product id with the stale price of the checked
product, the resolved user country, and the fresh `last_checked` instant;
records with other product ids are unchanged. -/
theorem c7_failed_check_frame :
    ∀ (st : DBState) (product : Product) (err affiliate_link : String) (now : Nat),
      (check_single_product st product (.fail err) affiliate_link now).2.1 = [] ∧
      (check_single_product st product (.fail err) affiliate_link now).2.2 =
        .errR product.product_id err ∧
      (check_single_product st product (.fail err) affiliate_link now).1.users = st.users ∧
      (check_single_product st product (.fail err) affiliate_link now).1.history = st.history ∧
      (check_single_product st product (.fail err) affiliate_link now).1.products =
        st.products.map (fun r =>
          if r.product_id == product.product_id then
            { r with
              current_price := pyOrQ product.current_price 0
              country := if (resolved_country st.users product).isEmpty then r.country
                         else resolved_country st.users product
              last_checked := some now }
          else r) := by
  intro st product err affiliate_link now
  refine ⟨rfl, rfl, rfl, rfl, ?_⟩
  show update_product_price st.products product.user_id product.product_id
      (pyOrQ product.current_price 0) (some (resolved_country st.users product)) none now = _
  unfold update_product_price
  apply List.map_congr_left
  intro r _
  by_cases h : (r.product_id == product.product_id) = true
  · simp only [h, if_true, pyTruthyOS, Option.getD]
    cases hc : (resolved_country st.users product).isEmpty <;> simp [hc]
  · simp only [Bool.not_eq_true] at h
    simp [h]

/-! ## C4 — bounded retry with exponential backoff -/

/-- A rate-limited attempt with budget remaining sleeps
`RATE_LIMIT_RETRY_DELAY * 2 ^ retry_count` and recurses. -/
theorem getPDFrom_rateLimited_step (oracle : Nat → NetResp) (pid country : String)
    (f rc : Nat) (msg : String)
    (h : attemptOutcome (oracle rc) pid = .rateLimited msg) (hlt : rc < MAX_RETRIES) :
    getPDFrom oracle pid country (f + 1) rc =
      (RATE_LIMIT_RETRY_DELAY * 2 ^ rc :: (getPDFrom oracle pid country f (rc + 1)).1,
       (getPDFrom oracle pid country f (rc + 1)).2) := by
  rw [getPDFrom, h]
  simp [hlt]

/-- A terminal attempt returns its tagged result unchanged. -/
theorem getPDFrom_done (oracle : Nat → NetResp) (pid country : String) (f rc : Nat)
    (r : ApiResult) (h : attemptOutcome (oracle rc) pid = .done r) :
    getPDFrom oracle pid country f rc = ([], .ok r) := by
  rw [getPDFrom, h]

/-- A rate-limited attempt with the budget exhausted surfaces the
rate-limit message as a tagged failure, with no further sleeping. -/
theorem getPDFrom_rateLimited_exhausted (oracle : Nat → NetResp) (pid country : String)
    (f rc : Nat) (msg : String)
    (h : attemptOutcome (oracle rc) pid = .rateLimited msg) (hge : ¬ rc < MAX_RETRIES) :
    getPDFrom oracle pid country f rc = ([], .ok (.fail msg)) := by
  rw [getPDFrom, h]
  simp [hge]

/-- C4: when the API answers rate-limited on the first `MAX_RETRIES`
attempts, the client sleeps exactly the delays `base * 2 ^ k` for
`k = 0 .. MAX_RETRIES - 1`; if the next attempt is terminal its result is
returned as is, and if it is rate-limited as well the call ends with that
rate-limited failure and no further retries. -/
theorem c4_retry_backoff :
    ∀ (oracle : Nat → NetResp) (pid country : String) (m : Nat → String) (r : ApiResult),
      (∀ k, k < MAX_RETRIES → attemptOutcome (oracle k) pid = .rateLimited (m k)) →
      (attemptOutcome (oracle MAX_RETRIES) pid = .done r →
          get_product_details oracle pid country 0 =
            ((List.range MAX_RETRIES).map (fun k => RATE_LIMIT_RETRY_DELAY * 2 ^ k),
              Except.ok r)) ∧
      (attemptOutcome (oracle MAX_RETRIES) pid = .rateLimited (m MAX_RETRIES) →
          get_product_details oracle pid country 0 =
            ((List.range MAX_RETRIES).map (fun k => RATE_LIMIT_RETRY_DELAY * 2 ^ k),
              Except.ok (.fail (m MAX_RETRIES)))) := by
  intro oracle pid country m r h1
  have e0 := h1 0 (by decide)
  have e1 := h1 1 (by decide)
  have e2 := h1 2 (by decide)
  have hrange : (List.range MAX_RETRIES).map (fun k => RATE_LIMIT_RETRY_DELAY * 2 ^ k) =
      [30, 60, 120] := by decide
  constructor
  · intro h2
    show getPDFrom oracle pid country 3 0 = _
    rw [getPDFrom_rateLimited_step oracle pid country 2 0 _ e0 (by decide),
        getPDFrom_rateLimited_step oracle pid country 1 1 _ e1 (by decide),
        getPDFrom_rateLimited_step oracle pid country 0 2 _ e2 (by decide),
        getPDFrom_done oracle pid country 0 3 r h2, hrange]
    rfl
  · intro h2
    show getPDFrom oracle pid country 3 0 = _
    rw [getPDFrom_rateLimited_step oracle pid country 2 0 _ e0 (by decide),
        getPDFrom_rateLimited_step oracle pid country 1 1 _ e1 (by decide),
        getPDFrom_rateLimited_step oracle pid country 0 2 _ e2 (by decide),
        getPDFrom_rateLimited_exhausted oracle pid country 0 3 _ h2 (by decide), hrange]
    rfl

/-- C4, witness: an oracle that answers rate-limited on attempts 0-2 and a
parseable product body from attempt 3 produces exactly the delays
30, 60, 120 and the parsed success result; an oracle that never stops
answering rate-limited produces the same three delays and a terminal
rate-limited failure. -/
theorem c4_retry_backoff_witness :
    get_product_details backoffOracle "123" "US" 0 =
      ((List.range MAX_RETRIES).map (fun k => RATE_LIMIT_RETRY_DELAY * 2 ^ k),
        Except.ok backoffSuccessResult) ∧
    get_product_details alwaysLimitedOracle "123" "US" 0 =
      ((List.range MAX_RETRIES).map (fun k => RATE_LIMIT_RETRY_DELAY * 2 ^ k),
        Except.ok (.fail "Rate limit exceeded")) :=
  ⟨(c4_retry_backoff backoffOracle "123" "US" (fun _ => "Rate limit exceeded")
      backoffSuccessResult
      (by intro k hk; have hk3 : k < 3 := hk; interval_cases k <;> rfl)).1 (by rfl),
   (c4_retry_backoff alwaysLimitedOracle "123" "US" (fun _ => "Rate limit exceeded")
      backoffSuccessResult
      (by intro k hk; rfl)).2 (by rfl)⟩

/-! ## C6 — no exception crosses the client boundary -/

/-- Every run of the retry worker ends in a tagged result. -/
theorem getPDFrom_isOk (fuel : Nat) :
    ∀ (oracle : Nat → NetResp) (pid country : String) (rc : Nat),
      ∃ r, (getPDFrom oracle pid country fuel rc).2 = Except.ok r := by
  induction fuel with
  | zero =>
    intro oracle pid country rc
    rw [getPDFrom]
    cases h : attemptOutcome (oracle rc) pid with
    | raised e => exact ⟨.fail e, rfl⟩
    | done r => exact ⟨r, rfl⟩
    | rateLimited msg =>
      by_cases hlt : rc < MAX_RETRIES
      · simp only [hlt, if_true]
        exact ⟨.fail msg, rfl⟩
      · simp only [hlt, if_false]
        exact ⟨.fail msg, rfl⟩
  | succ f ih =>
    intro oracle pid country rc
    rw [getPDFrom]
    cases h : attemptOutcome (oracle rc) pid with
    | raised e => exact ⟨.fail e, rfl⟩
    | done r => exact ⟨r, rfl⟩
    | rateLimited msg =>
      by_cases hlt : rc < MAX_RETRIES
      · simp only [hlt, if_true]
        exact ih oracle pid country (rc + 1)
      · simp only [hlt, if_false]
        exact ⟨.fail msg, rfl⟩

/-- Every run of the short-link resolution loop ends with a URL. -/
theorem resolveLoop_isOk (remaining : Nat) :
    ∀ (oracle : Nat → Except String String) (url : String) (max_retries attempt : Nat),
      ∃ s, (resolveLoop oracle url max_retries remaining attempt).2 = Except.ok s := by
  induction remaining with
  | zero => intro oracle url max_retries attempt; exact ⟨url, rfl⟩
  | succ rem ih =>
    intro oracle url max_retries attempt
    rw [resolveLoop]
    cases h : oracle attempt with
    | ok final_url =>
      by_cases hid : ((extract_product_id final_url).getD "").isEmpty
      · simp only [hid, if_true]
        exact ih oracle url max_retries (attempt + 1)
      · simp only [hid, if_false]
        exact ⟨final_url, rfl⟩
    | error e =>
      by_cases hlt : attempt < max_retries - 1
      · simp only [hlt, if_true]
        exact ih oracle url max_retries (attempt + 1)
      · simp only [hlt, if_false]
        exact ⟨url, rfl⟩

/-- C6: for every behaviour of the network session — every sequence of
decoded bodies, timeouts and thrown exceptions — `get_product_details`,
`resolve_shortened_url` and `generate_affiliate_link` return a tagged
value across their boundary: the `Except` layer marking an uncaught
exception is never `.error`.  Link-generation failures all collapse to the
original URL inside the returned value. -/
theorem c6_no_exception_across_boundary :
    (∀ (oracle : Nat → NetResp) (pid country : String) (rc : Nat),
        ∃ r, (get_product_details oracle pid country rc).2 = Except.ok r) ∧
    (∀ (oracle : Nat → Except String String) (url : String) (max_retries : Nat),
        ∃ s, (resolve_shortened_url oracle url max_retries).2 = Except.ok s) ∧
    (∀ (net : Except String Json) (product_url : String),
        ∃ j, generate_affiliate_link net product_url = Except.ok j) := by
  refine ⟨?_, ?_, ?_⟩
  · intro oracle pid country rc
    exact getPDFrom_isOk _ oracle pid country rc
  · intro oracle url max_retries
    exact resolveLoop_isOk _ oracle url max_retries 0
  · intro net product_url
    unfold generate_affiliate_link
    repeat' split
    all_goals exact ⟨_, rfl⟩

/-! ## C10 — product-URL round trip -/

/-- Taking while a predicate holds passes over a block of satisfying elements. -/
theorem takeWhile_append_of_all (p : α → Bool) :
    ∀ (l r : List α), (∀ x ∈ l, p x = true) →
      List.takeWhile p (l ++ r) = l ++ List.takeWhile p r := by
  intro l
  induction l with
  | nil => intro r _; simp
  | cons a l ih =>
    intro r h
    have ha := h a (by simp)
    simp only [List.cons_append, List.takeWhile_cons, ha, if_true]
    rw [ih r (fun x hx => h x (by simp [hx]))]

/-- Dropping while a predicate holds drops a whole block of satisfying elements. -/
theorem dropWhile_append_of_all (p : α → Bool) :
    ∀ (l r : List α), (∀ x ∈ l, p x = true) →
      List.dropWhile p (l ++ r) = List.dropWhile p r := by
  intro l
  induction l with
  | nil => intro r _; simp
  | cons a l ih =>
    intro r h
    have ha := h a (by simp)
    simp only [List.cons_append, List.dropWhile_cons, ha, if_true]
    exact ih r (fun x hx => h x (by simp [hx]))

/-- Search semantics of `re.search`: the scan passes over every start position at
which the pattern does not match. -/
theorem searchPattern_append_skip (pre suf : List Char) :
    ∀ (l t : List Char),
      (∀ n, n < l.length → tryPatternAt pre suf (List.drop n (l ++ t)) = none) →
      searchPattern pre suf (l ++ t) = searchPattern pre suf t := by
  intro l
  induction l with
  | nil => intro t _; simp
  | cons c cs ih =>
    intro t h
    have h0 : tryPatternAt pre suf (c :: (cs ++ t)) = none := by
      have := h 0 (by simp)
      simpa using this
    rw [List.cons_append, searchPattern]
    simp only [h0]
    exact ih t (fun n hn => by
      have := h (n + 1) (by simp; omega)
      simpa using this)

/-- C10: building the canonical product URL from a non-empty digit string
and extracting the product id back is the identity — the first pattern,
`/item/(\d+)\.html`, matches at the one position where `/item/` occurs and
captures exactly the digits. -/
theorem c10_product_url_roundtrip :
    ∀ pid : String, pid ≠ "" → (∀ c ∈ pid.data, c.isDigit = true) →
      extract_product_id (build_product_url pid) = some pid := by
  intro pid hne hdig
  have hd : pid.data ≠ [] := by
    intro h
    apply hne
    have h2 : String.mk pid.data = String.mk [] := by rw [h]
    exact h2
  have hsearch : searchPattern "/item/".toList ".html".toList
      (("https://www.aliexpress.com/item/".data ++ pid.data) ++ ".html".data) =
      some pid.data := by
    rw [List.append_assoc]
    rw [show "https://www.aliexpress.com/item/".data ++ (pid.data ++ ".html".data) =
        "https://www.aliexpress.com".data ++
          ('/' :: 'i' :: 't' :: 'e' :: 'm' :: '/' :: (pid.data ++ ".html".data)) from rfl]
    rw [searchPattern_append_skip _ _ _ _ ?hskip]
    case hskip =>
      intro n hn
      rw [show ("https://www.aliexpress.com".data).length = 26 from rfl] at hn
      interval_cases n <;> rfl
    have htake : (pid.data ++ ".html".data).takeWhile Char.isDigit = pid.data := by
      rw [takeWhile_append_of_all _ _ _ hdig]
      rw [show List.takeWhile Char.isDigit ".html".data = [] from rfl, List.append_nil]
    have hdrop : (pid.data ++ ".html".data).dropWhile Char.isDigit = ".html".data := by
      rw [dropWhile_append_of_all _ _ _ hdig]
      rfl
    have hemp : (pid.data).isEmpty = false := by
      cases hdd : pid.data with
      | nil => exact absurd hdd hd
      | cons a l => rfl
    have htry : tryPatternAt "/item/".toList ".html".toList
        ('/' :: 'i' :: 't' :: 'e' :: 'm' :: '/' :: (pid.data ++ ".html".data)) =
        some pid.data := by
      unfold tryPatternAt
      rw [if_pos (show isPrefixL "/item/".toList
            ('/' :: 'i' :: 't' :: 'e' :: 'm' :: '/' :: (pid.data ++ ".html".data)) = true
          from rfl)]
      rw [show List.drop ("/item/".toList).length
            ('/' :: 'i' :: 't' :: 'e' :: 'm' :: '/' :: (pid.data ++ ".html".data)) =
          pid.data ++ ".html".data from rfl]
      rw [htake, hdrop, hemp]
      rw [if_neg (by simp)]
      rw [if_pos (show isPrefixL ".html".toList ".html".data = true from rfl)]
    rw [searchPattern]
    simp only [htry]
  unfold extract_product_id build_product_url
  rw [String.data_append, String.data_append]
  rw [show productIdPatterns = ("/item/".toList, ".html".toList) :: productIdPatterns.tail
      from rfl]
  rw [List.findSome?_cons]
  simp only [hsearch]
  rfl

/-- C10, witness: the round trip evaluated on the digit string 1005006. -/
theorem c10_product_url_roundtrip_witness :
    extract_product_id (build_product_url "1005006") = some "1005006" :=
  c10_product_url_roundtrip "1005006" (by decide) (by decide)
